import Mathlib

/-!
Verification development for the swrpg-online/react-dice component library.

The development shallowly embeds the pure logic of the repository:
theme parsing, face validation, asset-locator derivation, base-path
resolution and normalization, the load lifecycle with its single
SVG-to-PNG retry, and the request-generation staleness guard.
Strings are modelled as Lean `String` values backed by `List Char`
operations so that every definition is executable.
-/

namespace ReactDice

/-- Characters treated as trimmable whitespace, mirroring the common
whitespace handled by JavaScript String.prototype.trim for theme inputs. -/
def isSpaceChar (c : Char) : Bool :=
  c = ' ' || c = '\t' || c = '\n' || c = '\r'

/-- Drop leading and trailing whitespace from a character list (the
list-level model of String.prototype.trim). -/
def trimL (l : List Char) : List Char :=
  ((l.dropWhile isSpaceChar).reverse.dropWhile isSpaceChar).reverse

/-- Boolean test that the first list is an initial segment of the second. -/
def leadsWith : List Char → List Char → Bool
  | [], _ => true
  | _ :: _, [] => false
  | p :: ps, c :: cs => p == c && leadsWith ps cs

/-- Boolean test that the first list is a terminal segment of the second. -/
def endsWithL (suf l : List Char) : Bool :=
  leadsWith suf.reverse l.reverse

/-- Remove every trailing slash, the list-level model of the JavaScript
replacement of the pattern of one or more terminal slashes by nothing. -/
def dropTrailingSlashes (l : List Char) : List Char :=
  (l.reverse.dropWhile (fun c => c == '/')).reverse

/-- Character list of the http scheme marker checked by the normalizer. -/
def httpMarker : List Char := ['h', 't', 't', 'p', ':', '/', '/']

/-- Character list of the https scheme marker checked by the normalizer. -/
def httpsMarker : List Char := ['h', 't', 't', 'p', 's', ':', '/', '/']

/-- Test for a scheme-qualified URL or protocol-relative reference,
embedding the regular-expression test for a leading http or https scheme
together with the protocol-relative check in src/src/DieContext.tsx line 116. -/
def isAbsoluteRef (l : List Char) : Bool :=
  leadsWith httpMarker l || leadsWith httpsMarker l || leadsWith ['/', '/'] l

/-- List-level body of the base-path normalizer, embedded from
normalizeBasePath in src/src/DieContext.tsx lines 106-126: strip trailing
slashes, return empty for the root, pass URLs through, otherwise ensure a
leading slash. -/
def normalizeCore (l : List Char) : List Char :=
  let n := dropTrailingSlashes l
  if n = [] then []
  else if isAbsoluteRef n then n
  else if leadsWith ['/'] n then n
  else '/' :: n

/-- String wrapper of the embedded base-path normalizer from
src/src/DieContext.tsx lines 106-126. -/
def normalizeBasePath (s : String) : String :=
  ⟨normalizeCore s.data⟩

/-- Embedding of the JavaScript or-else chain over optional strings used by
useEffectiveBasePath: an absent value and the empty string are both falsy
and fall through to the next source. From src/src/DieContext.tsx lines 90-94. -/
def jsOrElse (a : Option String) (b : String) : String :=
  match a with
  | none => b
  | some s => if s = "" then b else s

/-- The built-in default base path literal from src/src/DieContext.tsx line 94. -/
def defaultBasePath : String := "/assets/@swrpg-online/art/dice"

/-- Embedding of useEffectiveBasePath from src/src/DieContext.tsx lines 86-97:
prop override, then ambient context configuration, then the environment
variable, then the built-in default, with the winner normalized. -/
def useEffectiveBasePath (propBasePath ctxBasePath envPath : Option String) : String :=
  normalizeBasePath (jsOrElse propBasePath (jsOrElse ctxBasePath (jsOrElse envPath defaultBasePath)))

/-- The resolution rule exactly as claim C5 words it: the first DEFINED
source wins, regardless of emptiness, and the winner is normalized.
This definition follows the claim text and is compared against the
embedded useEffectiveBasePath. -/
def firstDefinedBasePath (propBasePath ctxBasePath envPath : Option String) : String :=
  normalizeBasePath (propBasePath.getD (ctxBasePath.getD (envPath.getD defaultBasePath)))

/-- The numeric die types, from the VALID_NUMERIC_DICE array of the source. -/
inductive NumericDieType
  | d4
  | d6
  | d8
  | d12
  | d20
  | d100
deriving DecidableEq

/-- Embedding of getMaxFace from src/unnamed/part_003 lines 175-192; the
hundred-sided die reports 90 because its faces run from 0 to 90 in steps
of ten. -/
def getMaxFace : NumericDieType → Int
  | .d4 => 4
  | .d6 => 6
  | .d8 => 8
  | .d12 => 12
  | .d20 => 20
  | .d100 => 90

/-- Embedding of the numeric face validation inside loadAsset,
src/unnamed/part_003 lines 312-324; true exactly when the code throws. -/
def faceValidationFails (t : NumericDieType) (face : Int) : Bool :=
  match t with
  | .d100 => decide (face < 0) || decide (face > getMaxFace .d100) || decide (face % 10 ≠ 0)
  | _ => decide (face < 1) || decide (face > getMaxFace t)

/-- Validation success for a numeric face, the complement of the thrown cases. -/
def validNumericFace (t : NumericDieType) (face : Int) : Bool :=
  ! faceValidationFails t face

/-- Side counts exactly as claim C1 states them for the dice other than the
hundred-sided one; the value given for the hundred-sided die is its nominal
side count and is unused by the claim. -/
def sideCount : NumericDieType → Int
  | .d4 => 4
  | .d6 => 6
  | .d8 => 8
  | .d12 => 12
  | .d20 => 20
  | .d100 => 100

/-- The string tag of each numeric die type as it appears in the source. -/
def numericDieTag : NumericDieType → String
  | .d4 => "d4"
  | .d6 => "d6"
  | .d8 => "d8"
  | .d12 => "d12"
  | .d20 => "d20"
  | .d100 => "d100"

/-- The VALID_NUMERIC_DICE array from the source. -/
def numericDieList : List String := ["d4", "d6", "d8", "d12", "d20", "d100"]

/-- The fixed narrative die set from src/src/types.ts lines 3-15. -/
def narrativeDieList : List String :=
  ["boost", "proficiency", "ability", "setback", "challenge", "difficulty"]

/-- Recognizer for numeric die tags, the string-keyed view of membership in
VALID_NUMERIC_DICE. -/
def toNumericDie (s : String) : Option NumericDieType :=
  if s = "d4" then some .d4
  else if s = "d6" then some .d6
  else if s = "d8" then some .d8
  else if s = "d12" then some .d12
  else if s = "d20" then some .d20
  else if s = "d100" then some .d100
  else none

/-- The narrative die types of the library. -/
inductive NarrativeDieType
  | boost
  | proficiency
  | ability
  | setback
  | challenge
  | difficulty
deriving DecidableEq

/-- The string tag of each narrative die type as in src/src/types.ts. -/
def narrativeDieTag : NarrativeDieType → String
  | .boost => "boost"
  | .proficiency => "proficiency"
  | .ability => "ability"
  | .setback => "setback"
  | .challenge => "challenge"
  | .difficulty => "difficulty"

/-- Uppercase the first character of a word, leaving the rest untouched. -/
def capitalizeFirst : List Char → List Char
  | [] => []
  | c :: cs => c.toUpper :: cs

/-- Lowercase a whole word, then capitalize only its first letter, after
trimming, as the theme parser specifies for each theme segment. -/
def normalizeWord (w : List Char) : List Char :=
  capitalizeFirst ((trimL w).map Char.toLower)

/-- Split a character list on the hyphen separator, mirroring the
JavaScript String.prototype.split with a hyphen argument. -/
def splitOnHyphen : List Char → List (List Char)
  | [] => [[]]
  | c :: cs =>
    if c = '-' then [] :: splitOnHyphen cs
    else
      match splitOnHyphen cs with
      | [] => [[c]]
      | h :: t => (c :: h) :: t

/-- Input to the theme parser: the component may receive a genuine string
or any non-string value. -/
inductive ThemeInput
  | notString
  | str (s : String)
deriving DecidableEq

/-- Result of theme parsing: capitalized style and script components plus
the diagnostic warnings emitted while parsing. -/
structure ParsedTheme where
  style : String
  script : String
  warnings : List String
deriving DecidableEq

/-- The built-in default style component. -/
def defaultStyle : String := "White"

/-- The built-in default script component. -/
def defaultScript : String := "Arabic"

/-- Modelled from the spec: the warning-emitting theme parser of the current
Die component (spec section 4.1), whose implementation is absent from src -
only its tests in src/src/Die.test.tsx lines 61-178 are present. Non-string
or trim-empty input defaults both components with an invalid-theme warning;
a single non-empty segment keeps its style and defaults the script with a
missing-script warning; an empty first or second segment defaults both
components with a malformed-theme warning; otherwise the first two trimmed
segments are lowercased and first-letter-capitalized, extra segments being
ignored silently. -/
def parseTheme : ThemeInput → ParsedTheme
  | .notString => ⟨defaultStyle, defaultScript, ["Invalid theme provided"]⟩
  | .str s =>
    let t := trimL s.data
    if t = [] then ⟨defaultStyle, defaultScript, ["Invalid theme provided"]⟩
    else
      match splitOnHyphen t with
      | [] => ⟨defaultStyle, defaultScript, ["Malformed theme string"]⟩
      | [seg] =>
        if trimL seg = [] then ⟨defaultStyle, defaultScript, ["Malformed theme string"]⟩
        else ⟨⟨normalizeWord seg⟩, defaultScript, ["Theme missing script part"]⟩
      | st :: sc :: _ =>
        if trimL st = [] ∨ trimL sc = [] then
          ⟨defaultStyle, defaultScript, ["Malformed theme string"]⟩
        else ⟨⟨normalizeWord st⟩, ⟨normalizeWord sc⟩, []⟩

/-- The malformed-theme input classes exactly as the spec enumerates them:
non-string, empty or whitespace-only, single-segment, and inputs whose
first or second hyphen-separated segment is empty. Claim C3 quantifies
over these. -/
def isMalformedTheme : ThemeInput → Bool
  | .notString => true
  | .str s =>
    let t := trimL s.data
    if t = [] then true
    else
      match splitOnHyphen t with
      | [] => true
      | [_] => true
      | st :: sc :: _ => decide (trimL st = []) || decide (trimL sc = [])

/-- The two asset encodings of the library. -/
inductive DieFormat
  | svg
  | png
deriving DecidableEq

/-- File extension of each format. -/
def formatExt : DieFormat → String
  | .svg => "svg"
  | .png => "png"

/-- The three physical variants of the four-sided die. -/
inductive D4Variant
  | standard
  | apex
  | base
deriving DecidableEq

/-- Embedding of getD4Config from src/unnamed/part_003 lines 207-216. -/
def getD4Config : D4Variant → String
  | .apex => "D4Apex"
  | .base => "D4Base"
  | .standard => "D4"

/-- Embedding of formatFaceNumber from src/unnamed/part_003 lines 197-199:
the decimal rendering of the face left-padded with zeros to two characters. -/
def formatFaceNumber (face : Nat) : String :=
  let s := toString face
  if s.length < 2 then ⟨List.replicate (2 - s.length) '0' ++ s.data⟩ else s

/-- Replace the first occurrence of the lowercase letter d by its uppercase
form, the list-level model of the JavaScript single-replacement of d by D. -/
def replaceFirstDL : List Char → List Char
  | [] => []
  | c :: cs => if c = 'd' then 'D' :: cs else c :: replaceFirstDL cs

/-- String wrapper for the first-occurrence replacement of d by D used by
the source to turn a numeric die tag into its asset label. -/
def replaceFirstD (s : String) : String :=
  ⟨replaceFirstDL s.data⟩

/-- Embedding of getDieTypeName from src/unnamed/part_003 lines 233-250. -/
def getDieTypeName (t : String) : String :=
  if t = "boost" then "Boost"
  else if t = "proficiency" then "Proficiency"
  else if t = "ability" then "Ability"
  else if t = "setback" then "Setback"
  else if t = "challenge" then "Challenge"
  else if t = "difficulty" then "Difficulty"
  else replaceFirstD t

/-- Error classification of the validation pipeline, following the spec
error taxonomy (section 7). -/
inductive DieError
  | invalidDieType (t : String)
  | numericRequiresNumber
  | narrativeRequiresString
  | invalidFaceForDie (t : String)
  | invalidFaceForD100
  | assetLoadFailed
deriving DecidableEq

/-- A face value is either an integer (numeric dice) or a string
(narrative dice). -/
inductive FaceValue
  | num (n : Int)
  | str (s : String)
deriving DecidableEq

/-- Directory segment contributed by the raw theme: the raw string when one
was supplied, the built-in default theme literal otherwise. -/
def rawThemeDir : ThemeInput → String
  | .str s => s
  | .notString => "white-arabic"

/-- Modelled from the spec: the validation and asset-locator pipeline
(spec sections 4.2 and 4.3) of the current Die component, whose
implementation is absent from src - only its tests in src/src/Die.test.tsx
are present. The embedded source helpers getMaxFace, faceValidationFails,
formatFaceNumber, getD4Config, replaceFirstD and getDieTypeName are reused.
Die types outside the numeric and narrative sets are rejected; numeric dice
demand an integer face in range; narrative dice demand a string face; on
success the canonical locator is produced under the effective base path. -/
def validateAndResolve (dieType : String) (face : FaceValue) (theme : ThemeInput)
    (fmt : DieFormat) (variant : D4Variant) (base : String) : Except DieError String :=
  match toNumericDie dieType with
  | some nt =>
    match face with
    | .str _ => .error .numericRequiresNumber
    | .num n =>
      if faceValidationFails nt n then
        .error (if nt = .d100 then .invalidFaceForD100 else .invalidFaceForDie dieType)
      else
        let pt := parseTheme theme
        let name := if nt = .d4 then getD4Config variant else replaceFirstD dieType
        .ok (base ++ "/numeric/" ++ rawThemeDir theme ++ "/" ++ name ++ "-" ++
             formatFaceNumber n.toNat ++ "-" ++ pt.script ++ "-" ++ pt.style ++ "." ++
             formatExt fmt)
  | none =>
    if dieType ∈ narrativeDieList then
      match face with
      | .num _ => .error .narrativeRequiresString
      | .str f =>
        .ok (base ++ "/narrative/" ++ getDieTypeName dieType ++ "/" ++
             getDieTypeName dieType ++ "-" ++ f ++ "." ++ formatExt fmt)
    else .error (.invalidDieType dieType)

instance {ε α : Type} [DecidableEq ε] [DecidableEq α] : DecidableEq (Except ε α) := fun a b =>
  match a, b with
  | .error x, .error y =>
    if h : x = y then .isTrue (h ▸ rfl) else .isFalse fun hh => h (by cases hh; rfl)
  | .error _, .ok _ => .isFalse fun hh => Except.noConfusion hh
  | .ok _, .error _ => .isFalse fun hh => Except.noConfusion hh
  | .ok x, .ok y =>
    if h : x = y then .isTrue (h ▸ rfl) else .isFalse fun hh => h (by cases hh; rfl)

/-- Phases of the load lifecycle of one input generation: loading with a
locator and a retry-exhausted flag, terminal success, or terminal error. -/
inductive LoadPhase
  | loading (src : String) (retried : Bool)
  | success (src : String)
  | failedState (e : DieError)
deriving DecidableEq

/-- Modelled from the spec: entry into the lifecycle (spec section 4.5,
transition 1): validation runs synchronously and a failure moves directly
to the error phase with no load attempt; success begins loading the
resolved locator with the retry not yet used. -/
def initLoad (dieType : String) (face : FaceValue) (theme : ThemeInput)
    (fmt : DieFormat) (variant : D4Variant) (base : String) : LoadPhase :=
  match validateAndResolve dieType face theme fmt variant base with
  | .error e => .failedState e
  | .ok src => .loading src false

/-- Modelled from the spec: rewrite a locator ending in the vector
extension to the raster extension (spec section 4.5, transition 4). -/
def swapExtToPng (src : String) : String :=
  if endsWithL ".svg".data src.data then
    ⟨src.data.take (src.data.length - 4) ++ ".png".data⟩
  else src

/-- Modelled from the spec: the load-failure transition (spec section 4.5,
transition 4): a first failure in vector format downgrades the locator to
raster and retries once; a failure after the retry, or any failure in
raster format, is terminal. -/
def onLoadError (fmt : DieFormat) (st : LoadPhase) : LoadPhase :=
  match st with
  | .loading src false =>
    match fmt with
    | .svg => .loading (swapExtToPng src) true
    | .png => .failedState .assetLoadFailed
  | .loading _ true => .failedState .assetLoadFailed
  | other => other

/-- Modelled from the spec: the load-success transition (spec section 4.5,
transition 3). -/
def onLoadSuccess : LoadPhase → LoadPhase
  | .loading src _ => .success src
  | other => other

/-- Displayed state of the component: loading placeholder, rendered
content, or the error alert. -/
inductive DisplayState
  | loading
  | success (content : String)
  | failed (message : String)
deriving DecidableEq

/-- Committed view state guarded by the request counter, embedding the
requestIdRef mechanism of src/src/Die.tsx lines 329-342. -/
structure DieViewState where
  reqId : Nat
  display : DisplayState
deriving DecidableEq

/-- Embedding of the effect entry in src/src/Die.tsx line 342: each input
change increments the request counter and resets the display to loading. -/
def newGeneration (s : DieViewState) : DieViewState :=
  { reqId := s.reqId + 1, display := .loading }

/-- Settlement outcome of an asynchronous load. -/
inductive LoadOutcome
  | ok (content : String)
  | err (message : String)
deriving DecidableEq

/-- Unconditional application of an outcome to the display. -/
def applyOutcome (o : LoadOutcome) (s : DieViewState) : DieViewState :=
  match o with
  | .ok c => { s with display := .success c }
  | .err m => { s with display := .failed m }

/-- Embedding of the staleness guard of src/src/Die.tsx lines 380-416: a
callback carries the generation it was issued for and mutates state only
when that generation is still the current one. -/
def settle (g : Nat) (o : LoadOutcome) (s : DieViewState) : DieViewState :=
  if g = s.reqId then applyOutcome o s else s

end ReactDice

namespace ReactDice

theorem dropWhile_dropWhile {α : Type} (p : α → Bool) (l : List α) :
    (l.dropWhile p).dropWhile p = l.dropWhile p := by
  induction l with
  | nil => rfl
  | cons c cs ih =>
    by_cases h : p c = true
    · simp only [List.dropWhile_cons_of_pos h]
      exact ih
    · simp only [List.dropWhile_cons_of_neg h]

theorem dropTrailingSlashes_idem (l : List Char) :
    dropTrailingSlashes (dropTrailingSlashes l) = dropTrailingSlashes l := by
  simp [dropTrailingSlashes, dropWhile_dropWhile]

theorem head_of_dropWhile_false {α : Type} (p : α → Bool) (l : List α) (c : α)
    (h : (l.dropWhile p).head? = some c) : p c = false := by
  induction l with
  | nil => simp [List.dropWhile] at h
  | cons a as ih =>
    by_cases ha : p a = true
    · rw [List.dropWhile_cons_of_pos ha] at h
      exact ih h
    · rw [List.dropWhile_cons_of_neg ha] at h
      simp only [List.head?_cons, Option.some.injEq] at h
      subst h
      simpa using ha

theorem dropWhile_eq_self_of_head {α : Type} (p : α → Bool) (l : List α) (c : α)
    (h : l.head? = some c) (hc : p c = false) : l.dropWhile p = l := by
  cases l with
  | nil => simp at h
  | cons a as =>
    simp only [List.head?_cons, Option.some.injEq] at h
    subst h
    exact List.dropWhile_cons_of_neg (by simp [hc])

theorem dropTrailingSlashes_getLast (l : List Char) :
    (dropTrailingSlashes l).getLast? ≠ some '/' := by
  intro h
  unfold dropTrailingSlashes at h
  rw [List.getLast?_reverse] at h
  have := head_of_dropWhile_false _ _ _ h
  simp at this

theorem dropTrailingSlashes_eq_self (l : List Char) (c : Char)
    (h : l.getLast? = some c) (hc : c ≠ '/') : dropTrailingSlashes l = l := by
  unfold dropTrailingSlashes
  rw [dropWhile_eq_self_of_head _ _ c (by rw [List.head?_reverse]; exact h) (by simp [hc])]
  exact l.reverse_reverse

theorem leadsWith_single_true (c : Char) (m : List Char)
    (h : leadsWith [c] m = true) : m.head? = some c := by
  cases m with
  | nil => simp [leadsWith] at h
  | cons d ds =>
    simp [leadsWith] at h
    simp [h]

theorem leadsWith_single_false (c : Char) (m : List Char)
    (h : leadsWith [c] m = false) : m.head? ≠ some c := by
  cases m with
  | nil => simp
  | cons d ds =>
    simp [leadsWith] at h
    simp
    exact fun hh => h hh.symm

theorem isAbsoluteRef_slash_cons (n : List Char) :
    isAbsoluteRef ('/' :: n) = leadsWith ['/'] n := by
  simp [isAbsoluteRef, httpMarker, httpsMarker, leadsWith]

theorem dropTrailingSlashes_slash_cons (l : List Char)
    (hne : dropTrailingSlashes l ≠ []) :
    dropTrailingSlashes ('/' :: dropTrailingSlashes l) = '/' :: dropTrailingSlashes l := by
  obtain ⟨c, hc⟩ : ∃ c, (dropTrailingSlashes l).getLast? = some c := by
    cases hg : (dropTrailingSlashes l).getLast? with
    | none =>
      exact absurd (by simpa using hg) hne
    | some c => exact ⟨c, rfl⟩
  have hcslash : c ≠ '/' := by
    intro hcs
    exact dropTrailingSlashes_getLast l (by rw [hc, hcs])
  apply dropTrailingSlashes_eq_self _ c _ hcslash
  cases hn2 : dropTrailingSlashes l with
  | nil => exact absurd hn2 hne
  | cons b bs =>
    rw [hn2] at hc
    rw [List.getLast?_cons_cons]
    exact hc

theorem normalizeCore_idem (l : List Char) :
    normalizeCore (normalizeCore l) = normalizeCore l := by
  by_cases h0 : dropTrailingSlashes l = []
  · have h1 : normalizeCore l = [] := by simp [normalizeCore, h0]
    rw [h1]
    simp [normalizeCore, dropTrailingSlashes]
  · by_cases habs : isAbsoluteRef (dropTrailingSlashes l) = true
    · have h1 : normalizeCore l = dropTrailingSlashes l := by
        simp [normalizeCore, h0, habs]
      rw [h1]
      simp [normalizeCore, dropTrailingSlashes_idem, h0, habs]
    · by_cases hsl : leadsWith ['/'] (dropTrailingSlashes l) = true
      · have h1 : normalizeCore l = dropTrailingSlashes l := by
          simp [normalizeCore, h0, habs, hsl]
        rw [h1]
        simp [normalizeCore, dropTrailingSlashes_idem, h0, habs, hsl]
      · have h1 : normalizeCore l = '/' :: dropTrailingSlashes l := by
          simp [normalizeCore, h0, habs, hsl]
        rw [h1]
        have hsl2 : leadsWith ['/'] (dropTrailingSlashes l) = false := by
          revert hsl
          cases leadsWith ['/'] (dropTrailingSlashes l) <;> simp
        have hstrip2 := dropTrailingSlashes_slash_cons l h0
        have habs2 : isAbsoluteRef ('/' :: dropTrailingSlashes l) = false := by
          rw [isAbsoluteRef_slash_cons]
          exact hsl2
        have hlead : leadsWith ['/'] ('/' :: dropTrailingSlashes l) = true := by
          simp [leadsWith]
        simp [normalizeCore, hstrip2, habs2, hlead]

/-- C10: the base-path normalizer is idempotent: normalizing an already
normalized base path changes nothing. -/
theorem normalizeBasePath_idempotent (p : String) :
    normalizeBasePath (normalizeBasePath p) = normalizeBasePath p :=
  congrArg String.mk (normalizeCore_idem p.data)

/-- C6: the base-path normalizer strips all trailing separators; if nothing
remains it returns the empty string; a scheme-qualified URL or
protocol-relative reference is returned unchanged after stripping, with no
leading-separator insertion; otherwise the result begins with exactly one
leading separator. -/
theorem normalizeBasePath_shape (p : String) :
    ((normalizeBasePath p).data.getLast? ≠ some '/')
  ∧ (dropTrailingSlashes p.data = [] → normalizeBasePath p = "")
  ∧ (dropTrailingSlashes p.data ≠ [] → isAbsoluteRef (dropTrailingSlashes p.data) = true →
      (normalizeBasePath p).data = dropTrailingSlashes p.data)
  ∧ (dropTrailingSlashes p.data ≠ [] → isAbsoluteRef (dropTrailingSlashes p.data) = false →
      (normalizeBasePath p).data.head? = some '/'
        ∧ (normalizeBasePath p).data.tail.head? ≠ some '/') := by
  have hdata : (normalizeBasePath p).data = normalizeCore p.data := rfl
  refine ⟨?_, ?_, ?_, ?_⟩
  · rw [hdata]
    by_cases h0 : dropTrailingSlashes p.data = []
    · simp [normalizeCore, h0]
    · by_cases habs : isAbsoluteRef (dropTrailingSlashes p.data) = true
      · simp only [normalizeCore, h0, habs, if_false, if_true]
        simp [h0, dropTrailingSlashes_getLast]
      · by_cases hsl : leadsWith ['/'] (dropTrailingSlashes p.data) = true
        · simp only [normalizeCore, h0, habs, hsl]
          simp [h0, dropTrailingSlashes_getLast]
        · have hres : normalizeCore p.data = '/' :: dropTrailingSlashes p.data := by
            simp [normalizeCore, h0, habs, hsl]
          rw [hres]
          cases hn2 : dropTrailingSlashes p.data with
          | nil => exact absurd hn2 h0
          | cons b bs =>
            rw [List.getLast?_cons_cons, ← hn2]
            exact dropTrailingSlashes_getLast p.data
  · intro h0
    have : normalizeCore p.data = [] := by simp [normalizeCore, h0]
    unfold normalizeBasePath
    rw [this]
  · intro h0 habs
    rw [hdata]
    simp [normalizeCore, h0, habs]
  · intro h0 habs
    rw [hdata]
    by_cases hsl : leadsWith ['/'] (dropTrailingSlashes p.data) = true
    · have hres : normalizeCore p.data = dropTrailingSlashes p.data := by
        simp [normalizeCore, h0, habs, hsl]
      rw [hres]
      have hhead := leadsWith_single_true '/' _ hsl
      constructor
      · exact hhead
      · cases hn2 : dropTrailingSlashes p.data with
        | nil => exact absurd hn2 h0
        | cons b bs =>
          rw [hn2] at hhead
          simp at hhead
          subst hhead
          have hdd : leadsWith ['/'] bs = false := by
            have h2 := habs
            rw [hn2] at h2
            rw [isAbsoluteRef_slash_cons] at h2
            exact h2
          simpa using leadsWith_single_false '/' bs hdd
    · have hres : normalizeCore p.data = '/' :: dropTrailingSlashes p.data := by
        simp [normalizeCore, h0, habs, hsl]
      rw [hres]
      constructor
      · rfl
      · have hsl2 : leadsWith ['/'] (dropTrailingSlashes p.data) = false := by
          revert hsl
          cases leadsWith ['/'] (dropTrailingSlashes p.data) <;> simp
        simpa using leadsWith_single_false '/' _ hsl2

/-- C5 counterexample: with the prop override defined as the empty string
and the ambient configuration defined as a context path, the code resolves
to the context path while the first-defined rule of the claim resolves to
the empty string, so the claim as stated is false. -/
theorem first_defined_base_path_claim_false :
    (useEffectiveBasePath (some "") (some "/ctx") none = "/ctx")
  ∧ (firstDefinedBasePath (some "") (some "/ctx") none = "")
  ∧ ¬ (∀ p c e : Option String, useEffectiveBasePath p c e = firstDefinedBasePath p c e) := by
  refine ⟨by decide, by decide, fun h => ?_⟩
  exact absurd (h (some "") (some "/ctx") none) (by decide)

/-- C5 (amended): the effective base path is the first defined AND
non-empty source in the order prop override, ambient configuration,
environment variable, built-in default; a source that is undefined or
defined as the empty string falls through to the next one, and the winning
value is then normalized. -/
theorem effective_base_path_priority (p c e : Option String) :
    (∀ s, p = some s → s ≠ "" → useEffectiveBasePath p c e = normalizeBasePath s)
  ∧ ((p = none ∨ p = some "") → ∀ s, c = some s → s ≠ "" →
        useEffectiveBasePath p c e = normalizeBasePath s)
  ∧ ((p = none ∨ p = some "") → (c = none ∨ c = some "") → ∀ s, e = some s → s ≠ "" →
        useEffectiveBasePath p c e = normalizeBasePath s)
  ∧ ((p = none ∨ p = some "") → (c = none ∨ c = some "") → (e = none ∨ e = some "") →
        useEffectiveBasePath p c e = normalizeBasePath defaultBasePath) := by
  refine ⟨?_, ?_, ?_, ?_⟩
  · rintro s rfl hs
    simp [useEffectiveBasePath, jsOrElse, hs]
  · rintro (rfl | rfl) s rfl hs <;> simp [useEffectiveBasePath, jsOrElse, hs]
  · rintro (rfl | rfl) (rfl | rfl) s rfl hs <;> simp [useEffectiveBasePath, jsOrElse, hs]
  · rintro (rfl | rfl) (rfl | rfl) (rfl | rfl) <;> simp [useEffectiveBasePath, jsOrElse]

/-- Witness for C5 (amended): with all four sources defined and non-empty
the prop override wins, reproducing the priority-order expectation of the
repository test suite. -/
theorem effective_base_path_priority_witness :
    useEffectiveBasePath (some "/prop/path") (some "/context/path") (some "/env/path")
      = "/prop/path" := by
  have h := (effective_base_path_priority (some "/prop/path") (some "/context/path")
    (some "/env/path")).1 "/prop/path" rfl (by decide)
  rw [h]
  decide

/-- C1: for every numeric die type other than the hundred-sided one,
validation succeeds exactly when the integer face lies between 1 and the
side count inclusive; for the hundred-sided die validation succeeds exactly
when the face is a multiple of ten between 0 and 90 inclusive. -/
theorem valid_face_iff (t : NumericDieType) (face : Int) :
    (t ≠ .d100 → (validNumericFace t face = true ↔ 1 ≤ face ∧ face ≤ sideCount t))
  ∧ (t = .d100 → (validNumericFace t face = true ↔
        ∃ k : Int, 0 ≤ k ∧ k ≤ 9 ∧ face = 10 * k)) := by
  constructor
  · intro ht
    cases t
    case d100 => exact absurd rfl ht
    all_goals simp [validNumericFace, faceValidationFails, getMaxFace, sideCount]
  · rintro rfl
    have hchar : validNumericFace .d100 face = true ↔ (0 ≤ face ∧ face ≤ 90 ∧ face % 10 = 0) := by
      simp [validNumericFace, faceValidationFails, getMaxFace]
      tauto
    rw [hchar]
    constructor
    · rintro ⟨h0, h90, h10⟩
      exact ⟨face / 10, by omega, by omega, by omega⟩
    · rintro ⟨k, hk0, hk9, rfl⟩
      omega

/-- Witness for C1: face 3 on the six-sided die and face 50 on the
hundred-sided die are both accepted. -/
theorem valid_face_iff_witness :
    validNumericFace NumericDieType.d6 3 = true
  ∧ validNumericFace NumericDieType.d100 50 = true := by
  constructor
  · exact ((valid_face_iff .d6 3).1 (by decide)).mpr (by constructor <;> decide)
  · exact ((valid_face_iff .d100 50).2 rfl).mpr ⟨5, by decide, by decide, by decide⟩

theorem toNumericDie_eq_none (s : String) (h : s ∉ numericDieList) :
    toNumericDie s = none := by
  simp [numericDieList] at h
  obtain ⟨h4, h6, h8, h12, h20, h100⟩ := h
  simp [toNumericDie, h4, h6, h8, h12, h20, h100]

/-- C9: a die type value outside both the fixed numeric set and the fixed
narrative set is rejected with the invalid-die-type error carrying the
offending value, and no asset path is computed. -/
theorem invalid_die_type_rejected (dieType : String) (face : FaceValue) (theme : ThemeInput)
    (fmt : DieFormat) (variant : D4Variant) (base : String)
    (hn : dieType ∉ numericDieList) (hr : dieType ∉ narrativeDieList) :
    validateAndResolve dieType face theme fmt variant base
      = .error (.invalidDieType dieType) := by
  have h1 := toNumericDie_eq_none dieType hn
  simp [validateAndResolve, h1, hr]

/-- Witness for C9: the literal invalid die type used by the repository
test suite is rejected with exactly the expected error value. -/
theorem invalid_die_type_rejected_witness :
    validateAndResolve "invalid" (.num 1) (.str "white-arabic") .svg .standard "/assets"
      = .error (.invalidDieType "invalid") :=
  invalid_die_type_rejected "invalid" (.num 1) (.str "white-arabic") .svg .standard "/assets"
    (by decide) (by decide)

theorem toNumericDie_tag (t : NumericDieType) : toNumericDie (numericDieTag t) = some t := by
  cases t <;> decide

theorem formatFaceNumber_two_digits (n : Nat) : 2 ≤ (formatFaceNumber n).length := by
  unfold formatFaceNumber
  by_cases h : (toString n).length < 2
  · rw [if_pos h]
    show 2 ≤ (List.replicate (2 - (toString n).length) '0' ++ (toString n).data).length
    rw [List.length_append, List.length_replicate]
    have hd : (toString n).data.length = (toString n).length := rfl
    omega
  · rw [if_neg h]
    omega

/-- C2: for every numeric die type other than the four-sided one, every
valid face, theme, format, and base path, the resolved locator is the base
followed by the numeric segment, the raw theme directory, and a filename
made of the capitalized die label, the zero-padded face of at least two
digits, and the parsed theme pair in script-first order, with the format
extension. -/
theorem numeric_asset_locator (t : NumericDieType) (face : Int) (theme : String)
    (fmt : DieFormat) (variant : D4Variant) (base : String)
    (ht : t ≠ .d4) (hface : validNumericFace t face = true) :
    validateAndResolve (numericDieTag t) (.num face) (.str theme) fmt variant base
      = .ok (base ++ "/numeric/" ++ theme ++ "/" ++ replaceFirstD (numericDieTag t) ++ "-" ++
             formatFaceNumber face.toNat ++ "-" ++ (parseTheme (.str theme)).script ++ "-" ++
             (parseTheme (.str theme)).style ++ "." ++ formatExt fmt)
  ∧ 2 ≤ (formatFaceNumber face.toNat).length
  ∧ replaceFirstD (numericDieTag t) = ⟨capitalizeFirst (numericDieTag t).data⟩ := by
  have htn := toNumericDie_tag t
  have hff : faceValidationFails t face = false := by
    simpa [validNumericFace] using hface
  have hname : (if t = NumericDieType.d4 then getD4Config variant
      else replaceFirstD (numericDieTag t)) = replaceFirstD (numericDieTag t) := if_neg ht
  have hcap : replaceFirstD (numericDieTag t) = ⟨capitalizeFirst (numericDieTag t).data⟩ := by
    cases t <;> decide
  refine ⟨?_, formatFaceNumber_two_digits _, hcap⟩
  simp [validateAndResolve, htn, hff, hname, rawThemeDir]

/-- Witness for C2: face 1 of the six-sided die under the prop base path
and default theme resolves to exactly the locator the repository test
suite expects. -/
theorem numeric_asset_locator_witness :
    validateAndResolve "d6" (.num 1) (.str "white-arabic") .svg .standard "/prop/path"
      = .ok "/prop/path/numeric/white-arabic/D6-01-Arabic-White.svg" := by
  have h := (numeric_asset_locator .d6 1 "white-arabic" .svg .standard "/prop/path"
    (by decide) (by decide)).1
  rw [show ("d6" : String) = numericDieTag .d6 from rfl, h]
  decide

/-- C4: for every narrative die type, face string, format and base path,
the resolved locator is the base followed by the narrative segment, a
directory named by the capitalized die label, and a filename made of the
same label and the verbatim face string, with the format extension. -/
theorem narrative_asset_locator (t : NarrativeDieType) (face : String) (theme : ThemeInput)
    (fmt : DieFormat) (variant : D4Variant) (base : String) :
    validateAndResolve (narrativeDieTag t) (.str face) theme fmt variant base
      = .ok (base ++ "/narrative/" ++ (⟨capitalizeFirst (narrativeDieTag t).data⟩ : String)
             ++ "/" ++ (⟨capitalizeFirst (narrativeDieTag t).data⟩ : String) ++ "-" ++ face
             ++ "." ++ formatExt fmt) := by
  have htn : toNumericDie (narrativeDieTag t) = none := by cases t <;> decide
  have hmem : narrativeDieTag t ∈ narrativeDieList := by cases t <;> decide
  have hname : getDieTypeName (narrativeDieTag t)
      = (⟨capitalizeFirst (narrativeDieTag t).data⟩ : String) := by
    cases t <;> decide
  simp [validateAndResolve, htn, hmem, hname]

/-- C3 counterexample: the single-segment theme black is one of the
malformed classes the specification enumerates, yet its parsed style is
Black rather than the built-in default White, so the claim that every
malformed input degrades to the built-in default components is false. -/
theorem parseTheme_full_default_claim_false :
    ¬ (∀ i : ThemeInput, isMalformedTheme i = true →
        (parseTheme i).style = defaultStyle ∧ (parseTheme i).script = defaultScript
          ∧ (parseTheme i).warnings ≠ []) := by
  intro h
  have hb := h (.str "black") (by decide)
  exact absurd hb.1 (by decide)

theorem normalizeWord_ne_nil (w : List Char) (h : trimL w ≠ []) : normalizeWord w ≠ [] := by
  unfold normalizeWord
  cases hw : trimL w with
  | nil => exact absurd hw h
  | cons c cs => simp [capitalizeFirst]

theorem string_mk_ne_empty (l : List Char) (h : l ≠ []) : (⟨l⟩ : String) ≠ "" :=
  fun hEq => h (congrArg String.data hEq)

/-- C3 (amended): the theme parser is total and always yields non-empty
components; non-string input and input trimming to empty degrade to the
built-in default pair with an invalid-theme warning; a single non-empty
segment keeps its capitalized style, defaults only the script, and warns
that the script part is missing; an empty first or second segment degrades
to the built-in default pair with a malformed-theme warning; in every
malformed class the script is the default and a warning identifying the
rule is emitted. -/
theorem parseTheme_total_and_defaults (i : ThemeInput) :
    ((parseTheme i).style ≠ "" ∧ (parseTheme i).script ≠ "")
  ∧ (isMalformedTheme i = true →
        (parseTheme i).script = defaultScript ∧ (parseTheme i).warnings ≠ [])
  ∧ (i = .notString → parseTheme i = ⟨defaultStyle, defaultScript, ["Invalid theme provided"]⟩)
  ∧ (∀ s, i = .str s → trimL s.data = [] →
        parseTheme i = ⟨defaultStyle, defaultScript, ["Invalid theme provided"]⟩)
  ∧ (∀ s seg, i = .str s → trimL s.data ≠ [] → splitOnHyphen (trimL s.data) = [seg] →
        trimL seg ≠ [] →
        parseTheme i = ⟨⟨normalizeWord seg⟩, defaultScript, ["Theme missing script part"]⟩)
  ∧ (∀ s st sc rest, i = .str s → trimL s.data ≠ [] →
        splitOnHyphen (trimL s.data) = st :: sc :: rest → (trimL st = [] ∨ trimL sc = []) →
        parseTheme i = ⟨defaultStyle, defaultScript, ["Malformed theme string"]⟩) := by
  refine ⟨?_, ?_, ?_, ?_, ?_, ?_⟩
  · cases i with
    | notString => exact ⟨by decide, by decide⟩
    | str s =>
      by_cases h0 : trimL s.data = []
      · have hres : parseTheme (.str s)
            = ⟨defaultStyle, defaultScript, ["Invalid theme provided"]⟩ := by
          simp [parseTheme, h0]
        rw [hres]
        exact ⟨by decide, by decide⟩
      · cases hsp : splitOnHyphen (trimL s.data) with
        | nil =>
          have hres : parseTheme (.str s)
              = ⟨defaultStyle, defaultScript, ["Malformed theme string"]⟩ := by
            simp [parseTheme, h0, hsp]
          rw [hres]
          exact ⟨by decide, by decide⟩
        | cons a rest =>
          cases rest with
          | nil =>
            by_cases hseg : trimL a = []
            · have hres : parseTheme (.str s)
                  = ⟨defaultStyle, defaultScript, ["Malformed theme string"]⟩ := by
                simp [parseTheme, h0, hsp, hseg]
              rw [hres]
              exact ⟨by decide, by decide⟩
            · have hres : parseTheme (.str s)
                  = ⟨⟨normalizeWord a⟩, defaultScript, ["Theme missing script part"]⟩ := by
                simp [parseTheme, h0, hsp, hseg]
              rw [hres]
              exact ⟨string_mk_ne_empty _ (normalizeWord_ne_nil a hseg),
                     show defaultScript ≠ "" by decide⟩
          | cons b rest2 =>
            by_cases hsm : trimL a = [] ∨ trimL b = []
            · have hres : parseTheme (.str s)
                  = ⟨defaultStyle, defaultScript, ["Malformed theme string"]⟩ := by
                simp [parseTheme, h0, hsp, hsm]
              rw [hres]
              exact ⟨by decide, by decide⟩
            · have hres : parseTheme (.str s)
                  = ⟨⟨normalizeWord a⟩, ⟨normalizeWord b⟩, []⟩ := by
                simp [parseTheme, h0, hsp, hsm]
              rw [hres]
              push_neg at hsm
              exact ⟨string_mk_ne_empty _ (normalizeWord_ne_nil a hsm.1),
                     string_mk_ne_empty _ (normalizeWord_ne_nil b hsm.2)⟩
  · intro hmal
    cases i with
    | notString => exact ⟨rfl, by decide⟩
    | str s =>
      by_cases h0 : trimL s.data = []
      · have hres : parseTheme (.str s)
            = ⟨defaultStyle, defaultScript, ["Invalid theme provided"]⟩ := by
          simp [parseTheme, h0]
        rw [hres]
        exact ⟨rfl, by decide⟩
      · cases hsp : splitOnHyphen (trimL s.data) with
        | nil =>
          have hres : parseTheme (.str s)
              = ⟨defaultStyle, defaultScript, ["Malformed theme string"]⟩ := by
            simp [parseTheme, h0, hsp]
          rw [hres]
          exact ⟨rfl, by decide⟩
        | cons a rest =>
          cases rest with
          | nil =>
            by_cases hseg : trimL a = []
            · have hres : parseTheme (.str s)
                  = ⟨defaultStyle, defaultScript, ["Malformed theme string"]⟩ := by
                simp [parseTheme, h0, hsp, hseg]
              rw [hres]
              exact ⟨rfl, by decide⟩
            · have hres : parseTheme (.str s)
                  = ⟨⟨normalizeWord a⟩, defaultScript, ["Theme missing script part"]⟩ := by
                simp [parseTheme, h0, hsp, hseg]
              rw [hres]
              exact ⟨rfl, show ["Theme missing script part"] ≠ ([] : List String) by decide⟩
          | cons b rest2 =>
            by_cases hsm : trimL a = [] ∨ trimL b = []
            · have hres : parseTheme (.str s)
                  = ⟨defaultStyle, defaultScript, ["Malformed theme string"]⟩ := by
                simp [parseTheme, h0, hsp, hsm]
              rw [hres]
              exact ⟨rfl, by decide⟩
            · exfalso
              have hm2 := hmal
              simp [isMalformedTheme, h0, hsp] at hm2
              exact hsm hm2
  · intro h
    subst h
    rfl
  · intro s hs h0
    subst hs
    simp [parseTheme, h0]
  · intro s seg hs hne hsp hseg
    subst hs
    simp [parseTheme, hne, hsp, hseg]
  · intro s st sc rest hs hne hsp hor
    subst hs
    simp [parseTheme, hne, hsp, hor]

/-- Witness for C3 (amended): the single-segment theme black keeps the
capitalized style Black with the default script, and a theme with an empty
first segment degrades fully to the defaults with the malformed warning. -/
theorem parseTheme_total_and_defaults_witness :
    parseTheme (.str "black") = ⟨"Black", "Arabic", ["Theme missing script part"]⟩
  ∧ parseTheme (.str "-roman") = ⟨"White", "Arabic", ["Malformed theme string"]⟩ := by
  constructor
  · have h := (parseTheme_total_and_defaults (.str "black")).2.2.2.2.1 "black"
      "black".data rfl (by decide) (by decide) (by decide)
    rw [h]
    decide
  · have h := (parseTheme_total_and_defaults (.str "-roman")).2.2.2.2.2 "-roman"
      "".data "roman".data [] rfl (by decide) (by decide) (Or.inl (by decide))
    rw [h]
    decide

theorem leadsWith_append_self (p y : List Char) : leadsWith p (p ++ y) = true := by
  induction p with
  | nil => rfl
  | cons c cs ih => simp [leadsWith, ih]

/-- C7: a first load failure in vector format rewrites the locator
extension to raster and retries exactly once; a failure after the retry,
or any failure in raster format, transitions to the error state; a
validation failure goes straight to the error state with no load begun
and hence no retry. -/
theorem svg_png_retry_once (src : String) :
    (onLoadError .svg (.loading src false) = .loading (swapExtToPng src) true)
  ∧ (endsWithL ".svg".data src.data = true →
        endsWithL ".png".data (swapExtToPng src).data = true)
  ∧ (onLoadError .svg (onLoadError .svg (.loading src false)) = .failedState .assetLoadFailed)
  ∧ (onLoadError .png (.loading src false) = .failedState .assetLoadFailed)
  ∧ (∀ dieType face theme fmt variant base e,
        validateAndResolve dieType face theme fmt variant base = .error e →
        initLoad dieType face theme fmt variant base = .failedState e) := by
  refine ⟨rfl, ?_, rfl, rfl, ?_⟩
  · intro h
    unfold swapExtToPng
    rw [if_pos h]
    show leadsWith ".png".data.reverse (src.data.take (src.data.length - 4)
      ++ ".png".data).reverse = true
    rw [List.reverse_append]
    exact leadsWith_append_self _ _
  · intro dieType face theme fmt variant base e h
    unfold initLoad
    rw [h]

/-- Witness for C7: a concrete vector locator is downgraded to raster on
first failure, and the invalid die type fails validation with no load. -/
theorem svg_png_retry_once_witness :
    onLoadError .svg (LoadPhase.loading "/a/D6-01-Arabic-White.svg" false)
      = .loading "/a/D6-01-Arabic-White.png" true
  ∧ endsWithL ".png".data (swapExtToPng "/a/D6-01-Arabic-White.svg").data = true
  ∧ initLoad "invalid" (.num 1) (.str "white-arabic") .svg .standard "/assets"
      = .failedState (.invalidDieType "invalid") := by
  refine ⟨?_, ?_, ?_⟩
  · have h := (svg_png_retry_once "/a/D6-01-Arabic-White.svg").1
    rw [h]
    decide
  · exact (svg_png_retry_once "/a/D6-01-Arabic-White.svg").2.1 (by decide)
  · exact (svg_png_retry_once "x").2.2.2.2 "invalid" (.num 1) (.str "white-arabic")
      .svg .standard "/assets" (.invalidDieType "invalid") (by decide)

/-- C8: a load callback belonging to a superseded input generation never
changes the committed state, for any sequence of such stale settlements;
and after generation N plus one has committed, a late settlement of
generation N is a no-op while the settlement of generation N plus one
determines the displayed state. -/
theorem stale_generations_never_overwrite (s : DieViewState) :
    (∀ evs : List (Nat × LoadOutcome), (∀ ev ∈ evs, ev.1 ≠ s.reqId) →
        evs.foldl (fun st ev => settle ev.1 ev.2 st) s = s)
  ∧ (∀ o₁ o₂ : LoadOutcome,
        settle (newGeneration s).reqId o₁ (newGeneration (newGeneration s))
          = newGeneration (newGeneration s)
      ∧ settle (newGeneration (newGeneration s)).reqId o₂
          (settle (newGeneration s).reqId o₁ (newGeneration (newGeneration s)))
          = applyOutcome o₂ (newGeneration (newGeneration s))) := by
  constructor
  · intro evs
    induction evs with
    | nil => intro _; rfl
    | cons ev rest ih =>
      intro h
      have h1 : settle ev.1 ev.2 s = s := by
        unfold settle
        rw [if_neg (h ev (List.mem_cons_self _ _))]
      rw [List.foldl_cons, h1]
      exact ih fun e he => h e (List.mem_cons_of_mem _ he)
  · intro o₁ o₂
    have hneq : (newGeneration s).reqId ≠ (newGeneration (newGeneration s)).reqId := by
      simp [newGeneration]
    have h1 : settle (newGeneration s).reqId o₁ (newGeneration (newGeneration s))
        = newGeneration (newGeneration s) := by
      unfold settle
      rw [if_neg hneq]
    refine ⟨h1, ?_⟩
    rw [h1]
    unfold settle
    rw [if_pos rfl]

/-- Witness for C8: a stale settlement for generation five leaves a
generation-zero state untouched, and after two input changes the stale
settlement of generation one is ignored while generation two's outcome is
displayed. -/
theorem stale_generations_never_overwrite_witness :
    ([((5 : Nat), LoadOutcome.ok "stale")].foldl
        (fun st ev => settle ev.1 ev.2 st) (⟨0, DisplayState.loading⟩ : DieViewState))
      = ⟨0, DisplayState.loading⟩
  ∧ settle 2 (LoadOutcome.ok "new")
      (settle 1 (LoadOutcome.err "stale") (⟨2, DisplayState.loading⟩ : DieViewState))
      = ⟨2, DisplayState.success "new"⟩ := by
  constructor
  · exact (stale_generations_never_overwrite ⟨0, .loading⟩).1 [(5, .ok "stale")]
      (by intro ev hev; rcases List.mem_singleton.mp hev with rfl; decide)
  · have h := ((stale_generations_never_overwrite ⟨0, .loading⟩).2
      (.err "stale") (.ok "new")).2
    simpa [newGeneration, applyOutcome] using h

/-- Witness for C6: the relative path assets followed by a slash is stripped
and gains exactly one leading separator. -/
theorem normalizeBasePath_shape_witness :
    dropTrailingSlashes "assets/".data ≠ []
  ∧ isAbsoluteRef (dropTrailingSlashes "assets/".data) = false
  ∧ (normalizeBasePath "assets/").data.head? = some '/'
  ∧ (normalizeBasePath "assets/").data.tail.head? ≠ some '/' := by
  refine ⟨by decide, by decide, ?_, ?_⟩
  · exact ((normalizeBasePath_shape "assets/").2.2.2 (by decide) (by decide)).1
  · exact ((normalizeBasePath_shape "assets/").2.2.2 (by decide) (by decide)).2

end ReactDice
